import Mathlib

/-!
Verification development for the live-ingest control plane of this repository:
the webhook delivery engine (`backend/services/webhook_dispatcher.py`), the
ingest authorization webhook handler (`streaming-engine/webhook-handler/main.py`),
the rate limiter (`backend/middleware/rate_limiter.py`) and the security
middleware (`backend/middleware/security.py`).

The Python sources are shallowly embedded: pure helpers become Lean functions,
Redis-backed state becomes explicit state records threaded through each
handler, `raise HTTPException` becomes an `Except` error carrying the store
state at raise time, and the HTTP environment (subscriber responses, the
control-plane collaborator) is an explicit parameter.  Machine integers are
`Nat`/`Int` with explicit reduction modulo 2^32 where the hash arithmetic
overflows.  Logging and response-payload details that no claim mentions are
elided; every control-flow decision of the source is kept.
-/

namespace Crypto

/-- Bytes are naturals < 256; 32-bit words are naturals < 2^32. -/
def mask32 : Nat := 4294967296

def add32 (a b : Nat) : Nat := (a + b) % mask32

def rotr32 (x n : Nat) : Nat := ((x >>> n) ||| (x <<< (32 - n))) % mask32

def bnot32 (x : Nat) : Nat := x ^^^ 4294967295

def ch (x y z : Nat) : Nat := (x &&& y) ^^^ (bnot32 x &&& z)

def maj (x y z : Nat) : Nat := (x &&& y) ^^^ (x &&& z) ^^^ (y &&& z)

def bigSigma0 (x : Nat) : Nat := rotr32 x 2 ^^^ rotr32 x 13 ^^^ rotr32 x 22

def bigSigma1 (x : Nat) : Nat := rotr32 x 6 ^^^ rotr32 x 11 ^^^ rotr32 x 25

def smallSigma0 (x : Nat) : Nat := rotr32 x 7 ^^^ rotr32 x 18 ^^^ (x >>> 3)

def smallSigma1 (x : Nat) : Nat := rotr32 x 17 ^^^ rotr32 x 19 ^^^ (x >>> 10)

/-- The 64 SHA-256 round constants. -/
def K : List Nat :=
  [1116352408, 1899447441, 3049323471, 3921009573, 961987163,
   1508970993, 2453635748, 2870763221, 3624381080, 310598401,
   607225278, 1426881987, 1925078388, 2162078206, 2614888103,
   3248222580, 3835390401, 4022224774, 264347078, 604807628,
   770255983, 1249150122, 1555081692, 1996064986, 2554220882,
   2821834349, 2952996808, 3210313671, 3336571891, 3584528711,
   113926993, 338241895, 666307205, 773529912, 1294757372,
   1396182291, 1695183700, 1986661051, 2177026350, 2456956037,
   2730485921, 2820302411, 3259730800, 3345764771, 3516065817,
   3600352804, 4094571909, 275423344, 430227734, 506948616,
   659060556, 883997877, 958139571, 1322822218, 1537002063,
   1747873779, 1955562222, 2024104815, 2227730452, 2361852424,
   2428436474, 2756734187, 3204031479, 3329325298]

/-- The SHA-256 initial hash value. -/
def H0 : List Nat :=
  [1779033703, 3144134277, 1013904242, 2773480762,
   1359893119, 2600822924, 528734635, 1541459225]

/-- Big-endian encoding of `v` into exactly `n` bytes. -/
def toBytesBE (n v : Nat) : List Nat :=
  (List.range n).map fun i => (v >>> (8 * (n - 1 - i))) % 256

/-- SHA-256 padding: append 0x80, zero bytes, and the 64-bit bit length. -/
def pad (msg : List Nat) : List Nat :=
  let L := msg.length
  let k := (64 - (L + 9) % 64) % 64
  msg ++ [0x80] ++ List.replicate k 0 ++ toBytesBE 8 (8 * L)

/-- Group bytes into big-endian 32-bit words. -/
def toWords : List Nat → List Nat
  | a :: b :: c :: d :: rest =>
      (a * 16777216 + b * 65536 + c * 256 + d) :: toWords rest
  | _ => []

/-- Split a word list into 16-word blocks. -/
def toBlocks : List Nat → List (List Nat)
  | [] => []
  | w :: ws => ((w :: ws).take 16) :: toBlocks ((w :: ws).drop 16)
termination_by l => l.length
decreasing_by simp [List.length_drop]; omega

/-- Extend a 16-word block by `n` schedule words
`W t = sigma1 (W (t-2)) + W (t-7) + sigma0 (W (t-15)) + W (t-16)`. -/
def extendW (w : List Nat) : Nat → List Nat
  | 0 => w
  | n + 1 =>
      let p := extendW w n
      let L := p.length
      p ++ [add32 (add32 (smallSigma1 (p.getD (L - 2) 0)) (p.getD (L - 7) 0))
             (add32 (smallSigma0 (p.getD (L - 15) 0)) (p.getD (L - 16) 0))]

/-- One SHA-256 compression round on the 8-word working state. -/
def round (st : List Nat) (kt wt : Nat) : List Nat :=
  match st with
  | [a, b, c, d, e, f, g, h] =>
      let t1 := add32 (add32 (add32 h (bigSigma1 e)) (add32 (ch e f g) kt)) wt
      let t2 := add32 (bigSigma0 a) (maj a b c)
      [add32 t1 t2, a, b, c, add32 d t1, e, f, g]
  | other => other

/-- Process one 16-word block, updating the 8-word hash state. -/
def processBlock (h block : List Nat) : List Nat :=
  let w := extendW block 48
  let st := (K.zip w).foldl (fun s p => round s p.1 p.2) h
  (h.zip st).map fun p => add32 p.1 p.2

/-- SHA-256 of a byte list, as a 32-byte list. -/
def sha256 (msg : List Nat) : List Nat :=
  let hs := (toBlocks (toWords (pad msg))).foldl processBlock H0
  hs.foldr (fun w acc => toBytesBE 4 w ++ acc) []

/-- HMAC-SHA256 (RFC 2104, block size 64) of a message under a key. -/
def hmacSha256 (key msg : List Nat) : List Nat :=
  let k1 := if key.length > 64 then sha256 key else key
  let k0 := k1 ++ List.replicate (64 - k1.length) 0
  let opad := k0.map fun b => b ^^^ 0x5c
  let ipad := k0.map fun b => b ^^^ 0x36
  sha256 (opad ++ sha256 (ipad ++ msg))

def hexChar (n : Nat) : Char :=
  if n < 10 then Char.ofNat (48 + n) else Char.ofNat (87 + n)

/-- Lowercase two-digit hex of one byte. -/
def byteHex (b : Nat) : String := String.mk [hexChar (b / 16), hexChar (b % 16)]

/-- Lowercase hex digest of a byte list, as produced by `hexdigest()`. -/
def hexDigest (bs : List Nat) : String := String.join (bs.map byteHex)

/-- UTF-8 encoding of a string as a byte list, as `str.encode("utf-8")`. -/
def utf8 (s : String) : List Nat := s.toUTF8.toList.map fun b => b.toNat

end Crypto

namespace Py

/-- Python JSON values as handled by the dispatcher's payload dictionaries.
Numbers are restricted to integers; objects keep insertion order like a
Python `dict`. -/
inductive Json where
  | null
  | bool (b : Bool)
  | num (n : Int)
  | str (s : String)
  | arr (items : List Json)
  | obj (entries : List (String × Json))

def hex4 (n : Nat) : String :=
  String.mk [Crypto.hexChar (n / 4096 % 16), Crypto.hexChar (n / 256 % 16),
             Crypto.hexChar (n / 16 % 16), Crypto.hexChar (n % 16)]

/-- Escaping of one character as in `json.dumps` with the default
`ensure_ascii=True` (short escapes for the common controls, `\uXXXX` for
other controls and all non-ASCII, surrogate pairs beyond the BMP). -/
def escapeChar (c : Char) : String :=
  if c = Char.ofNat 34 then "\\\""
  else if c = Char.ofNat 92 then "\\\\"
  else if c = Char.ofNat 8 then "\\b"
  else if c = Char.ofNat 9 then "\\t"
  else if c = Char.ofNat 10 then "\\n"
  else if c = Char.ofNat 12 then "\\f"
  else if c = Char.ofNat 13 then "\\r"
  else if c.toNat < 32 then "\\u" ++ hex4 c.toNat
  else if c.toNat < 127 then String.singleton c
  else if c.toNat < 65536 then "\\u" ++ hex4 c.toNat
  else
    let v := c.toNat - 65536
    "\\u" ++ hex4 (55296 + v / 1024) ++ "\\u" ++ hex4 (56320 + v % 1024)

def quoteStr (s : String) : String :=
  "\"" ++ String.join (s.data.map escapeChar) ++ "\""

/-- Ordering used by `sort_keys=True`: compare entries by key (keys of a
Python dict are unique, so the value is never compared). -/
def keyLe (a b : String × String) : Prop := a.1 ≤ b.1

instance : DecidableRel keyLe := fun a b => inferInstanceAs (Decidable (a.1 ≤ b.1))

mutual

/-- `json.dumps(v, sort_keys=True)` with the default separators
`", "` and `": "` and `ensure_ascii=True`: every object, at every nesting
depth, is rendered with its entries sorted by key. -/
def dumpsSorted : Json → String
  | .null => "null"
  | .bool b => if b then "true" else "false"
  | .num n => toString n
  | .str s => quoteStr s
  | .arr items => "[" ++ String.intercalate ", " (dumpsList items) ++ "]"
  | .obj entries =>
      "\x7b" ++
        String.intercalate ", "
          (((dumpsEntries entries).insertionSort keyLe).map
            fun p => quoteStr p.1 ++ ": " ++ p.2) ++
      "\x7d"

def dumpsList : List Json → List String
  | [] => []
  | x :: xs => dumpsSorted x :: dumpsList xs

def dumpsEntries : List (String × Json) → List (String × String)
  | [] => []
  | (k, v) :: xs => (k, dumpsSorted v) :: dumpsEntries xs

end

end Py

namespace WebhookDispatcher

/-- Embedding of `WebhookDispatcher.create_signature`
(`backend/services/webhook_dispatcher.py` lines 22-32):
`hmac.new(secret.encode("utf-8"), json.dumps(payload, sort_keys=True).encode("utf-8"), hashlib.sha256).hexdigest()`. -/
def create_signature (payload : List (String × Py.Json)) (secret : String) : String :=
  Crypto.hexDigest
    (Crypto.hmacSha256 (Crypto.utf8 secret)
      (Crypto.utf8 (Py.dumpsSorted (Py.Json.obj payload))))

/-- The four unconditional headers built by `dispatch_event` (lines 44-49). -/
def base_headers (event_type timestamp : String) : List (String × String) :=
  [("Content-Type", "application/json"),
   ("User-Agent", "RealCast-Webhook/1.0"),
   ("X-RealCast-Event", event_type),
   ("X-RealCast-Timestamp", timestamp)]

/-- Headers of the outbound request: the signature header is added exactly
when `secret` is truthy (`if secret:` — `None` and `""` are falsy), lines
51-54. -/
def dispatch_headers (event_type timestamp : String)
    (payload : List (String × Py.Json)) (secret : Option String) :
    List (String × String) :=
  match secret with
  | some s =>
      if s ≠ "" then
        base_headers event_type timestamp ++
          [("X-RealCast-Signature", "sha256=" ++ create_signature payload s)]
      else base_headers event_type timestamp
  | none => base_headers event_type timestamp

/-- Outcome of one `await self.client.post(...)` call: an HTTP response with
status and body text, an `httpx.TimeoutException`, or any other exception
(connection errors). -/
inductive AttemptResult where
  | response (status : Nat) (text : String)
  | timeout
  | exc (msg : String)
deriving Repr, DecidableEq

/-- The dictionary returned by `dispatch_event`; keys the source omits in a
given return statement are `none`. -/
structure DispatchResult where
  delivered : Bool
  status_code : Option Nat
  response_body : Option String
  error : Option String
  attempt : Nat
deriving Repr, DecidableEq

/-- The retry loop of `dispatch_event` (lines 56-117), with the subscriber's
behavior as an environment mapping attempt number to outcome.  Besides the
returned dictionary it records the trace: the list of attempts made (attempt
number paired with the outcome observed) and the list of backoff sleeps
(seconds) performed.  `fuel` is the number of remaining loop iterations,
`maxRetries + 1 - attempt`; exhausting it is the fall-through return of
lines 113-117. -/
def dispatch_loop (maxRetries : Nat) (env : Nat → AttemptResult) :
    Nat → Nat → DispatchResult × List (Nat × AttemptResult) × List Nat
  | _, 0 =>
      (⟨false, none, none, some "Maximum retries exceeded", maxRetries⟩, [], [])
  | attempt, fuel + 1 =>
      let r := env attempt
      -- fall through to the backoff of lines 107-111 and the next iteration
      let retry :=
        let next := dispatch_loop maxRetries env (attempt + 1) fuel
        if attempt < maxRetries then
          (next.1, (attempt, r) :: next.2.1, 2 ^ (attempt - 1) :: next.2.2)
        else
          (next.1, (attempt, r) :: next.2.1, next.2.2)
      match r with
      | .response s t =>
          if s = 200 ∨ s = 201 ∨ s = 202 ∨ s = 204 then
            (⟨true, some s, some (t.take 500), none, attempt⟩, [(attempt, r)], [])
          else if 400 ≤ s ∧ s < 500 then
            (⟨false, some s, none, some ("Client error: " ++ t.take 200), attempt⟩,
             [(attempt, r)], [])
          else retry
      | .timeout =>
          if attempt = maxRetries then
            (⟨false, none, none, some "Timeout after maximum retries", attempt⟩,
             [(attempt, r)], [])
          else retry
      | .exc m =>
          if attempt = maxRetries then
            (⟨false, none, none, some m, attempt⟩, [(attempt, r)], [])
          else retry

/-- `dispatch_event` runs the loop `for attempt in range(1, max_retries + 1)`. -/
def dispatch_event (maxRetries : Nat) (env : Nat → AttemptResult) :
    DispatchResult × List (Nat × AttemptResult) × List Nat :=
  dispatch_loop maxRetries env 1 maxRetries

end WebhookDispatcher

/-- Pointwise update of a string-keyed store (one Redis key or dict entry). -/
def upd {α : Type} (f : String → Option α) (k : String) (v : Option α) :
    String → Option α :=
  fun x => if x = k then v else f x

namespace Handler

/-- An `HTTPException(status_code, detail)` raised by a handler. -/
structure HErr where
  code : Nat
  detail : String
deriving Repr, DecidableEq

/-- The `stream_data` dictionary stored on publish
(`streaming-engine/webhook-handler/main.py` lines 147-152). -/
structure StreamData where
  started_at : String
  client_ip : String
  app_name : String
  stream_info : List (String × Py.Json)

/-- One `stream_stats` entry (lines 162-168). -/
structure Stats where
  total_publishes : Nat
  total_plays : Nat
  last_publish : Option String
  last_play : Option String
deriving Repr, DecidableEq

def initStats : Stats := ⟨0, 0, none, none⟩

/-- Observable state of the handler process: the Redis keys it touches
(`stream:<k>:status`, `stream:<k>:data`, `stream:<k>:viewers`, each keyed
here by the stream key) plus the in-memory fallback dictionaries
`active_streams` and `stream_stats`.  Redis `str(stream_data)` storage keeps
the structured value; TTLs of the session keys are not exercised by any
claim and are elided. -/
structure HandlerState where
  redisAvailable : Bool
  status : String → Option String
  dataStore : String → Option StreamData
  viewers : String → Option Int
  active : String → Option StreamData
  stats : String → Option Stats

/-- Behavior of the Control-Plane validation collaborator for one call:
an HTTP response (status plus parsed JSON-object body, the documented shape
being a record of stream fields) or an `httpx.RequestError`. -/
inductive Upstream where
  | resp (status : Nat) (body : List (String × Py.Json))
  | connError

/-- The fail-open dictionary of lines 79 and 84. -/
def failOpenInfo (k : String) : List (String × Py.Json) :=
  [("stream_key", .str k), ("validated", .bool false)]

/-- Embedding of `validate_stream_key` (lines 55-84): 200 returns the body,
404 raises 403, any other status or a connection error fails open. -/
def validate_stream_key (up : Upstream) (stream_key : String) :
    Except HErr (List (String × Py.Json)) :=
  match up with
  | .resp s body =>
      if s = 200 then .ok body
      else if s = 404 then .error ⟨403, "Invalid stream key"⟩
      else .ok (failOpenInfo stream_key)
  | .connError => .ok (failOpenInfo stream_key)

/-- A 200 `JSONResponse` from a handler. -/
structure OkResp where
  code : Nat
  resp_status : String
  stream_key : String
deriving Repr, DecidableEq

/-- Embedding of `auth_publish` (lines 105-180).  Errors carry the state at
raise time; success carries the new state and the events sent to the
Control Plane (event type, stream key). -/
def auth_publish (now : String) (up : Upstream) (st : HandlerState)
    (stream_key client_ip app_name : String) :
    Except (HErr × HandlerState) (OkResp × HandlerState × List (String × String)) :=
  match validate_stream_key up stream_key with
  | .error e => .error (e, st)
  | .ok stream_info =>
    -- `if not stream_info:` — an empty dict is falsy
    if stream_info.isEmpty then
      .error (⟨403, "Invalid stream key"⟩, st)
    else
      let live : Bool :=
        if st.redisAvailable then st.status stream_key == some "live"
        else (st.active stream_key).isSome
      if live then
        .error (⟨409, "Stream already in use"⟩, st)
      else
        let sd : StreamData := ⟨now, client_ip, app_name, stream_info⟩
        let st1 :=
          if st.redisAvailable then
            { st with status := upd st.status stream_key (some "live"),
                      dataStore := upd st.dataStore stream_key (some sd) }
          else
            { st with active := upd st.active stream_key (some sd) }
        let s0 := (st1.stats stream_key).getD initStats
        let s1 := { s0 with total_publishes := s0.total_publishes + 1,
                            last_publish := some now }
        let st2 := { st1 with stats := upd st1.stats stream_key (some s1) }
        .ok (⟨200, "allowed", stream_key⟩, st2, [("stream.live", stream_key)])

/-- Embedding of `auth_publish_done` (lines 183-219): always a 200
`recorded` response; deletes the session keys (Redis) or the
`active_streams` entry (fallback) and notifies `stream.offline`.  The
logged duration string is elided. -/
def auth_publish_done (st : HandlerState) (stream_key : String) :
    OkResp × HandlerState × List (String × String) :=
  let st1 :=
    if st.redisAvailable then
      { st with status := upd st.status stream_key none,
                dataStore := upd st.dataStore stream_key none }
    else
      match st.active stream_key with
      | some _ => { st with active := upd st.active stream_key none }
      | none => st
  (⟨200, "recorded", stream_key⟩, st1, [("stream.offline", stream_key)])

/-- Embedding of `auth_play` (lines 222-255): stats update, then a Redis
`INCR` of the viewer counter (a missing key counts as 0), allow. -/
def auth_play (now : String) (st : HandlerState) (stream_key client_ip : String) :
    OkResp × HandlerState :=
  let s0 := (st.stats stream_key).getD initStats
  let s1 := { s0 with total_plays := s0.total_plays + 1, last_play := some now }
  let st1 := { st with stats := upd st.stats stream_key (some s1) }
  let st2 :=
    if st1.redisAvailable then
      { st1 with viewers := upd st1.viewers stream_key (some ((st1.viewers stream_key).getD 0 + 1)) }
    else st1
  (⟨200, "allowed", stream_key⟩, st2)

/-- Embedding of `auth_play_done` (lines 258-275): a Redis `DECR` of the
viewer counter (a missing key counts as 0), then a 200 response. -/
def auth_play_done (st : HandlerState) (stream_key : String) :
    OkResp × HandlerState :=
  let st1 :=
    if st.redisAvailable then
      { st with viewers := upd st.viewers stream_key (some ((st.viewers stream_key).getD 0 - 1)) }
    else st
  (⟨200, "recorded", stream_key⟩, st1)

/-- Run a sequence of viewer events for one stream key
(`true` = `play`, `false` = `play_done`). -/
def runViewerOps (now : String) (k ip : String) :
    List Bool → HandlerState → HandlerState
  | [], st => st
  | op :: rest, st =>
      runViewerOps now k ip rest
        (if op then (auth_play now st k ip).2 else (auth_play_done st k).2)

/-- The viewer count the code reports for a key (missing counter = 0). -/
def viewerCount (st : HandlerState) (k : String) : Int :=
  (st.viewers k).getD 0

end Handler

namespace RateLimiter

/-- One Redis counter: stored value and absolute expiry time (set by
`EXPIRE`); the key is visible only while `now < expiry`. -/
structure Entry where
  value : Nat
  expiry : Nat
deriving Repr, DecidableEq

/-- The two counter families of `backend/middleware/rate_limiter.py`:
`ratelimit:minute:<identifier>` and `ratelimit:hour:<identifier>`. -/
structure Store where
  minute : String → Option Entry
  hour : String → Option Entry

def emptyStore : Store := ⟨fun _ => none, fun _ => none⟩

/-- `GET` at time `t`: an expired key reads as missing. -/
def getAt (f : String → Option Entry) (k : String) (t : Nat) : Option Nat :=
  match f k with
  | some e => if t < e.expiry then some e.value else none
  | none => none

/-- The rate-limit `HTTPException`: 429 plus the `Retry-After` header. -/
structure RLErr where
  code : Nat
  retry_after : String
deriving Repr, DecidableEq

/-- Python truthiness test of line 45/55:
`if count and int(count) >= limit`. -/
def overLimit (c : Option Nat) (limit : Nat) : Bool :=
  match c with
  | some v => limit ≤ v
  | none => false

/-- Embedding of `RateLimiter.check_rate_limit` (lines 27-77) at time `t`:
check the minute counter, then the hour counter, and only then `INCR` both
(an expired or missing key increments from 0) and `EXPIRE` them (60 s and
3600 s).  A raise returns the store exactly as it was at raise time. -/
def check_rate_limit (perMinute perHour : Nat) (t : Nat) (ident : String)
    (st : Store) : Except (RLErr × Store) Store :=
  if overLimit (getAt st.minute ident t) perMinute then
    .error (⟨429, "60"⟩, st)
  else if overLimit (getAt st.hour ident t) perHour then
    .error (⟨429, "3600"⟩, st)
  else
    let st1 := { st with minute := upd st.minute ident (some ⟨(getAt st.minute ident t).getD 0 + 1, t + 60⟩) }
    let st2 := { st1 with hour := upd st1.hour ident (some ⟨(getAt st1.hour ident t).getD 0 + 1, t + 3600⟩) }
    .ok st2

/-- Per-request outcome as the middleware surfaces it. -/
inductive RLOutcome where
  | allowed
  | rejected (code : Nat) (retry_after : String)
deriving Repr, DecidableEq

/-- Run a sequence of requests (given by their arrival times) for one
identifier through `check_rate_limit`. -/
def runRL (perMinute perHour : Nat) (ident : String) :
    List Nat → Store → List RLOutcome × Store
  | [], st => ([], st)
  | t :: ts, st =>
      match check_rate_limit perMinute perHour t ident st with
      | .ok st1 =>
          let rest := runRL perMinute perHour ident ts st1
          (.allowed :: rest.1, rest.2)
      | .error (e, st1) =>
          let rest := runRL perMinute perHour ident ts st1
          (.rejected e.code e.retry_after :: rest.1, rest.2)

end RateLimiter

namespace Security

/-- The Redis keys of `backend/middleware/security.py`:
`blocked_ip:<ip>` (value irrelevant, expiry from `SETEX`) and
`suspicious:<ip>` (count plus expiry from `EXPIRE`). -/
structure Store where
  blocked : String → Option Nat
  susp : String → Option (Nat × Nat)

def emptyStore : Store := ⟨fun _ => none, fun _ => none⟩

/-- Is the `blocked_ip` key alive at time `t`? -/
def blockedAt (st : Store) (ip : String) (t : Nat) : Bool :=
  match st.blocked ip with
  | some e => t < e
  | none => false

/-- Current value of the `suspicious` counter (expired or missing = 0). -/
def suspCountAt (st : Store) (ip : String) (t : Nat) : Nat :=
  match st.susp ip with
  | some ce => if t < ce.2 then ce.1 else 0
  | none => 0

/-- Outcome of `security_check_middleware` for one request. -/
inductive SecOutcome where
  | allowed
  | blocked403
  | limited429
deriving Repr, DecidableEq

/-- Embedding of `security_check_middleware` (lines 152-172) at time `t`:
`check_blocked_ip` (403 if the block key is alive, lines 53-69), then
`detect_suspicious_activity` (lines 71-98): `INCR`, `EXPIRE 60`, and when
the count exceeds the threshold, `SETEX blocked_ip 3600` followed by a 429. -/
def security_check_middleware (threshold : Nat) (t : Nat) (ip : String)
    (st : Store) : SecOutcome × Store :=
  if blockedAt st ip t then
    (.blocked403, st)
  else
    let c := suspCountAt st ip t + 1
    let st1 := { st with susp := upd st.susp ip (some (c, t + 60)) }
    if threshold < c then
      let st2 := { st1 with blocked := upd st1.blocked ip (some (t + 3600)) }
      (.limited429, st2)
    else
      (.allowed, st1)

/-- Run a sequence of requests (arrival times) from one IP through the
security middleware. -/
def runSec (threshold : Nat) (ip : String) :
    List Nat → Store → List SecOutcome × Store
  | [], st => ([], st)
  | t :: ts, st =>
      let step := security_check_middleware threshold t ip st
      let rest := runSec threshold ip ts step.2
      (step.1 :: rest.1, rest.2)

end Security

section CanonicalJson

open Py

instance : IsTotal (String × String) Py.keyLe := ⟨fun a b => le_total a.1 b.1⟩

instance : IsTrans (String × String) Py.keyLe := ⟨fun _ _ _ h1 h2 => le_trans h1 h2⟩

/-- Two sorted association lists that are permutations of each other and
whose keys are duplicate-free are equal. -/
theorem sorted_perm_eq_of_nodup_keys :
    ∀ l1 l2 : List (String × String), l1.Perm l2 →
      l1.Pairwise Py.keyLe → l2.Pairwise Py.keyLe →
      (l1.map Prod.fst).Nodup → l1 = l2 := by
  intro l1
  induction l1 with
  | nil =>
      intro l2 hp _ _ _
      exact hp.nil_eq
  | cons a t1 ih =>
      intro l2 hp hs1 hs2 hnd
      cases l2 with
      | nil => exact absurd hp.symm (by simp)
      | cons b t2 =>
          have hab : b = a := by
            have hbmem : b ∈ a :: t1 := hp.symm.subset (List.mem_cons_self b t2)
            rcases List.mem_cons.mp hbmem with h | hbt1
            · exact h
            · have hamem : a ∈ b :: t2 := hp.subset (List.mem_cons_self a t1)
              rcases List.mem_cons.mp hamem with h2 | hat2
              · exact h2.symm
              · exfalso
                have h1 : a.1 ≤ b.1 := (List.pairwise_cons.mp hs1).1 b hbt1
                have h2 : b.1 ≤ a.1 := (List.pairwise_cons.mp hs2).1 a hat2
                have hkey : a.1 = b.1 := le_antisymm h1 h2
                have hnd2 : ¬ a.1 ∈ t1.map Prod.fst ∧ (t1.map Prod.fst).Nodup :=
                  List.nodup_cons.mp (by simpa using hnd)
                exact hnd2.1 (hkey ▸ List.mem_map_of_mem Prod.fst hbt1)
          subst hab
          have hp2 : t1.Perm t2 := hp.cons_inv
          have hrest := ih t2 hp2 (List.Pairwise.of_cons hs1) (List.Pairwise.of_cons hs2)
            (List.nodup_cons.mp (by simpa using hnd)).2
          rw [hrest]

/-- Sorting by key is insensitive to the input order when keys are unique. -/
theorem insertionSort_keyLe_eq_of_perm (l1 l2 : List (String × String))
    (h : l1.Perm l2) (hnd : (l1.map Prod.fst).Nodup) :
    l1.insertionSort Py.keyLe = l2.insertionSort Py.keyLe := by
  apply sorted_perm_eq_of_nodup_keys
  · exact (List.perm_insertionSort _ l1).trans (h.trans (List.perm_insertionSort _ l2).symm)
  · exact List.sorted_insertionSort _ l1
  · exact List.sorted_insertionSort _ l2
  · exact (((List.perm_insertionSort _ l1).map Prod.fst).nodup_iff).mpr hnd

theorem dumpsEntries_eq_map (l : List (String × Py.Json)) :
    Py.dumpsEntries l = l.map fun p => (p.1, Py.dumpsSorted p.2) := by
  induction l with
  | nil => simp [Py.dumpsEntries]
  | cons x xs ih => cases x; simp [Py.dumpsEntries, ih]

/-- The canonical (sorted-key) serialization of an object is determined by
its entries as a finite map: any reordering of a duplicate-free-keyed
object serializes identically. -/
theorem dumpsSorted_obj_perm (p1 p2 : List (String × Py.Json))
    (h : p1.Perm p2) (hnd : (p1.map Prod.fst).Nodup) :
    Py.dumpsSorted (.obj p1) = Py.dumpsSorted (.obj p2) := by
  have he : (Py.dumpsEntries p1).Perm (Py.dumpsEntries p2) := by
    rw [dumpsEntries_eq_map, dumpsEntries_eq_map]
    exact h.map _
  have hk : ((Py.dumpsEntries p1).map Prod.fst).Nodup := by
    rw [dumpsEntries_eq_map]
    simpa [List.map_map, Function.comp] using hnd
  have hsort := insertionSort_keyLe_eq_of_perm _ _ he hk
  simp only [Py.dumpsSorted]
  rw [hsort]

/-- The HMAC signature of a payload dictionary is determined by the
dictionary as a finite map, independent of insertion order. -/
theorem create_signature_perm (p1 p2 : List (String × Py.Json)) (S : String)
    (h : p1.Perm p2) (hnd : (p1.map Prod.fst).Nodup) :
    WebhookDispatcher.create_signature p1 S = WebhookDispatcher.create_signature p2 S := by
  unfold WebhookDispatcher.create_signature
  rw [dumpsSorted_obj_perm p1 p2 h hnd]

end CanonicalJson

/-- C3 (confirmed): for every payload dictionary `P` (duplicate-free keys)
and non-empty secret `S`, `dispatch_event` attaches the header
`X-RealCast-Signature: sha256=<hex(HMAC-SHA256(S, canonical_json(P)))>`,
and the canonical (sorted-key) serialization is insensitive to the
dictionary's insertion order, so a receiver recomputing the HMAC over the
canonical serialization of the received body (any reordering `p2` of the
same map) obtains the attached digest. -/
theorem webhook_signature_matches_canonical_hmac
    (p1 p2 : List (String × Py.Json)) (S ev ts : String)
    (hperm : p1.Perm p2) (hnd : (p1.map Prod.fst).Nodup) (hS : S ≠ "") :
    ("X-RealCast-Signature", "sha256=" ++ WebhookDispatcher.create_signature p2 S)
        ∈ WebhookDispatcher.dispatch_headers ev ts p1 (some S)
    ∧ WebhookDispatcher.create_signature p1 S =
        Crypto.hexDigest (Crypto.hmacSha256 (Crypto.utf8 S)
          (Crypto.utf8 (Py.dumpsSorted (Py.Json.obj p1)))) := by
  refine ⟨?_, rfl⟩
  have hsig := create_signature_perm p1 p2 S hperm hnd
  simp [WebhookDispatcher.dispatch_headers, hS, hsig]

/-- Witness for C3 at the dictionary written in two insertion orders. -/
theorem webhook_signature_matches_canonical_hmac_witness :
    ("X-RealCast-Signature",
        "sha256=" ++ WebhookDispatcher.create_signature
          [("a", Py.Json.num 2), ("b", Py.Json.num 1)] "s3cret")
        ∈ WebhookDispatcher.dispatch_headers "stream.live" "2024-01-01T00:00:00"
            [("b", Py.Json.num 1), ("a", Py.Json.num 2)] (some "s3cret")
    ∧ WebhookDispatcher.create_signature
        [("b", Py.Json.num 1), ("a", Py.Json.num 2)] "s3cret" =
        Crypto.hexDigest (Crypto.hmacSha256 (Crypto.utf8 "s3cret")
          (Crypto.utf8 (Py.dumpsSorted (Py.Json.obj
            [("b", Py.Json.num 1), ("a", Py.Json.num 2)])))) :=
  webhook_signature_matches_canonical_hmac
    [("b", Py.Json.num 1), ("a", Py.Json.num 2)]
    [("a", Py.Json.num 2), ("b", Py.Json.num 1)]
    "s3cret" "stream.live" "2024-01-01T00:00:00"
    (List.Perm.swap _ _ _) (by decide) (by decide)

theorem dispatch_loop_all_500 (m : Nat) (env : Nat → WebhookDispatcher.AttemptResult)
    (body : Nat → String) (henv : ∀ n, env n = .response 500 (body n)) :
    ∀ f a, 1 ≤ a → a + f = m + 1 →
      WebhookDispatcher.dispatch_loop m env a f =
        (⟨false, none, none, some "Maximum retries exceeded", m⟩,
         (List.range' a f).map (fun n => (n, env n)),
         (List.range' a (f - 1)).map (fun n => 2 ^ (n - 1))) := by
  intro f
  induction f with
  | zero =>
      intro a _ _
      simp [WebhookDispatcher.dispatch_loop, List.range']
  | succ f ih =>
      intro a ha haf
      rw [WebhookDispatcher.dispatch_loop]
      rw [henv a]
      simp only [show ¬((500 : Nat) = 200 ∨ (500 : Nat) = 201 ∨ (500 : Nat) = 202 ∨
        (500 : Nat) = 204) from by decide, if_false,
        show ¬((400 : Nat) ≤ 500 ∧ (500 : Nat) < 500) from by decide]
      cases f with
      | zero =>
          have ham : ¬ a < m := by omega
          simp [ham, WebhookDispatcher.dispatch_loop, List.range', henv a]
      | succ g =>
          have ham : a < m := by omega
          rw [ih (a + 1) (by omega) (by omega)]
          simp [ham, List.range', henv a]

/-- C1 (corrected): when every attempt yields a 500 response,
`dispatch_event` makes exactly `max_retries` attempts, sleeping
`2^(attempt-1)` seconds after each non-final attempt (1 s, 2 s for the
default `max_retries = 3`), and returns a terminal failure whose error is
the string "Maximum retries exceeded" (not the claimed lowercase
"max retries exceeded") with `attempt = max_retries`. -/
theorem dispatch_all_500_exhausts_retries (m : Nat)
    (env : Nat → WebhookDispatcher.AttemptResult) (body : Nat → String)
    (henv : ∀ n, env n = .response 500 (body n)) :
    WebhookDispatcher.dispatch_event m env =
      (⟨false, none, none, some "Maximum retries exceeded", m⟩,
       (List.range' 1 m).map (fun n => (n, env n)),
       (List.range' 1 (m - 1)).map (fun n => 2 ^ (n - 1))) :=
  dispatch_loop_all_500 m env body henv m 1 le_rfl (by omega)

/-- Counterexample to C1 as stated: at a subscriber answering 500 on every
attempt (with `max_retries = 3`), the terminal failure reason is
"Maximum retries exceeded", not "max retries exceeded". -/
theorem dispatch_all_500_reason_differs :
    (WebhookDispatcher.dispatch_event 3 (fun _ => .response 500 "err")).1.error
        = some "Maximum retries exceeded"
    ∧ (WebhookDispatcher.dispatch_event 3 (fun _ => .response 500 "err")).1.error
        ≠ some "max retries exceeded"
    ∧ (WebhookDispatcher.dispatch_event 3 (fun _ => .response 500 "err")).1.attempt = 3 := by
  decide

/-- Witness for C1: the all-500 subscriber with the default three retries
makes attempts 1, 2, 3 with backoff sleeps of 1 s and 2 s. -/
theorem dispatch_all_500_exhausts_retries_witness :
    WebhookDispatcher.dispatch_event 3 (fun _ => .response 500 "err") =
      (⟨false, none, none, some "Maximum retries exceeded", 3⟩,
       (List.range' 1 3).map (fun n => (n, WebhookDispatcher.AttemptResult.response 500 "err")),
       (List.range' 1 2).map (fun n => 2 ^ (n - 1))) :=
  dispatch_all_500_exhausts_retries 3 (fun _ => .response 500 "err") (fun _ => "err")
    (fun _ => rfl)

/-- An outcome that the loop does not return on directly: any response
status outside the success set and outside 4xx, a timeout, or a connection
error. -/
def retriedOutcome (r : WebhookDispatcher.AttemptResult) : Prop :=
  match r with
  | .response s _ => ¬(s = 200 ∨ s = 201 ∨ s = 202 ∨ s = 204) ∧ ¬(400 ≤ s ∧ s < 500)
  | .timeout => True
  | .exc _ => True

theorem dispatch_loop_trace_head (m : Nat) (env : Nat → WebhookDispatcher.AttemptResult)
    (a f : Nat) :
    ∃ res rest sl, WebhookDispatcher.dispatch_loop m env a (f + 1) =
      (res, (a, env a) :: rest, sl) := by
  rw [WebhookDispatcher.dispatch_loop]
  cases henv : env a with
  | response s t =>
      by_cases h1 : s = 200 ∨ s = 201 ∨ s = 202 ∨ s = 204
      · refine ⟨⟨true, some s, some (t.take 500), none, a⟩, [], [], ?_⟩
        simp [henv, h1]
      · by_cases h2 : 400 ≤ s ∧ s < 500
        · refine ⟨⟨false, some s, none, some ("Client error: " ++ t.take 200), a⟩, [], [], ?_⟩
          simp [henv, h1, h2]
        · by_cases h3 : a < m
          · refine ⟨(WebhookDispatcher.dispatch_loop m env (a + 1) f).1,
              (WebhookDispatcher.dispatch_loop m env (a + 1) f).2.1,
              2 ^ (a - 1) :: (WebhookDispatcher.dispatch_loop m env (a + 1) f).2.2, ?_⟩
            simp [henv, h1, h2, h3]
          · refine ⟨(WebhookDispatcher.dispatch_loop m env (a + 1) f).1,
              (WebhookDispatcher.dispatch_loop m env (a + 1) f).2.1,
              (WebhookDispatcher.dispatch_loop m env (a + 1) f).2.2, ?_⟩
            simp [henv, h1, h2, h3]
  | timeout =>
      by_cases h1 : a = m
      · refine ⟨⟨false, none, none, some "Timeout after maximum retries", a⟩, [], [], ?_⟩
        simp [henv, h1]
      · by_cases h3 : a < m
        · refine ⟨(WebhookDispatcher.dispatch_loop m env (a + 1) f).1,
            (WebhookDispatcher.dispatch_loop m env (a + 1) f).2.1,
            2 ^ (a - 1) :: (WebhookDispatcher.dispatch_loop m env (a + 1) f).2.2, ?_⟩
          simp [henv, h1, h3]
        · refine ⟨(WebhookDispatcher.dispatch_loop m env (a + 1) f).1,
            (WebhookDispatcher.dispatch_loop m env (a + 1) f).2.1,
            (WebhookDispatcher.dispatch_loop m env (a + 1) f).2.2, ?_⟩
          simp [henv, h1, h3]
  | exc msg =>
      by_cases h1 : a = m
      · refine ⟨⟨false, none, none, some msg, a⟩, [], [], ?_⟩
        simp [henv, h1]
      · by_cases h3 : a < m
        · refine ⟨(WebhookDispatcher.dispatch_loop m env (a + 1) f).1,
            (WebhookDispatcher.dispatch_loop m env (a + 1) f).2.1,
            2 ^ (a - 1) :: (WebhookDispatcher.dispatch_loop m env (a + 1) f).2.2, ?_⟩
          simp [henv, h1, h3]
        · refine ⟨(WebhookDispatcher.dispatch_loop m env (a + 1) f).1,
            (WebhookDispatcher.dispatch_loop m env (a + 1) f).2.1,
            (WebhookDispatcher.dispatch_loop m env (a + 1) f).2.2, ?_⟩
          simp [henv, h1, h3]

/-- C2 (corrected): on the first delivery attempt, a response whose status
is in the success set 200/201/202/204 returns success with no further
attempt and no backoff; any 4xx response returns a permanent failure after
exactly one attempt with no retry; and any other outcome — a 5xx response,
but also any other status outside the success set (203, 3xx, ...), a
connection error, or a timeout — is retried: a 1 s backoff is scheduled and
a second attempt is made. -/
theorem dispatch_single_attempt_classification (m : Nat)
    (env : Nat → WebhookDispatcher.AttemptResult) (hm : 1 ≤ m) :
    (∀ s t, env 1 = .response s t → (s = 200 ∨ s = 201 ∨ s = 202 ∨ s = 204) →
        WebhookDispatcher.dispatch_event m env =
          (⟨true, some s, some (t.take 500), none, 1⟩, [(1, env 1)], []))
    ∧ (∀ s t, env 1 = .response s t → 400 ≤ s → s < 500 →
        WebhookDispatcher.dispatch_event m env =
          (⟨false, some s, none, some ("Client error: " ++ t.take 200), 1⟩,
           [(1, env 1)], []))
    ∧ (2 ≤ m → retriedOutcome (env 1) →
        ∃ res rest sl, WebhookDispatcher.dispatch_event m env =
          (res, (1, env 1) :: (2, env 2) :: rest, 1 :: sl)) := by
  obtain ⟨m1, rfl⟩ : ∃ m1, m = m1 + 1 := ⟨m - 1, by omega⟩
  refine ⟨?_, ?_, ?_⟩
  · intro s t henv hs
    unfold WebhookDispatcher.dispatch_event
    rw [WebhookDispatcher.dispatch_loop]
    simp [henv, hs]
  · intro s t henv h4 h5
    have hs : ¬(s = 200 ∨ s = 201 ∨ s = 202 ∨ s = 204) := by omega
    unfold WebhookDispatcher.dispatch_event
    rw [WebhookDispatcher.dispatch_loop]
    simp [henv, hs, h4, h5]
  · intro h2 hro
    obtain ⟨m2, rfl⟩ : ∃ m2, m1 = m2 + 1 := ⟨m1 - 1, by omega⟩
    have h1m : (1 : Nat) < m2 + 1 + 1 := by omega
    obtain ⟨res, rest, sl, hnext⟩ := dispatch_loop_trace_head (m2 + 1 + 1) env 2 m2
    unfold WebhookDispatcher.dispatch_event
    rw [WebhookDispatcher.dispatch_loop]
    cases henv : env 1 with
    | response s t =>
        rw [henv] at hro
        refine ⟨res, rest, sl, ?_⟩
        simp [hro.1, hro.2, h1m, hnext, henv]
    | timeout =>
        have hne : ¬(1 = m2 + 1 + 1) := by omega
        refine ⟨res, rest, sl, ?_⟩
        simp [hne, h1m, hnext, henv]
    | exc msg =>
        have hne : ¬(1 = m2 + 1 + 1) := by omega
        refine ⟨res, rest, sl, ?_⟩
        simp [hne, h1m, hnext, henv]

/-- Counterexample to C2 as stated: a 203 response is a 2xx status, yet the
dispatcher does not treat it as success — it retries it like a transient
failure, making all three attempts and failing. -/
theorem dispatch_203_not_success :
    (200 ≤ 203 ∧ 203 < 300)
    ∧ (WebhookDispatcher.dispatch_event 3 (fun _ => .response 203 "ok")).1.delivered = false
    ∧ (WebhookDispatcher.dispatch_event 3 (fun _ => .response 203 "ok")).2.1.length = 3 := by
  decide

/-- Witness for C2 at a 404 subscriber: one attempt, permanent failure. -/
theorem dispatch_single_attempt_classification_witness :
    WebhookDispatcher.dispatch_event 3 (fun _ => .response 404 "nf") =
      (⟨false, some 404, none, some ("Client error: " ++ String.take "nf" 200), 1⟩,
       [(1, WebhookDispatcher.AttemptResult.response 404 "nf")], []) :=
  (dispatch_single_attempt_classification 3 (fun _ => .response 404 "nf")
    (by decide)).2.1 404 "nf" rfl (by decide) (by decide)

/-- Handler state with Redis connected and every store empty. -/
def Handler.emptyState : Handler.HandlerState :=
  ⟨true, fun _ => none, fun _ => none, fun _ => none, fun _ => none, fun _ => none⟩

/-- C4 (confirmed): when the registry reports the stream key Live (Redis
status "live", or the in-memory fallback entry present) and the key
validates, `auth_publish` denies with 409 Conflict and leaves the state
exactly as it was — the existing session is neither created anew nor
replaced, preserving the one-Live-session-per-key invariant. -/
theorem publish_conflict_preserves_session (now k ip app_name : String)
    (st : Handler.HandlerState) (body : List (String × Py.Json)) (hbody : body ≠ [])
    (hlive : (st.redisAvailable = true ∧ st.status k = some "live")
      ∨ (st.redisAvailable = false ∧ (st.active k).isSome = true)) :
    Handler.auth_publish now (.resp 200 body) st k ip app_name =
      .error (⟨409, "Stream already in use"⟩, st) := by
  have hbe : body.isEmpty = false := by
    cases body
    · exact absurd rfl hbody
    · rfl
  unfold Handler.auth_publish Handler.validate_stream_key
  rcases hlive with ⟨hr, hs⟩ | ⟨hr, ha⟩
  · simp [hbe, hr, hs]
  · simp [hbe, hr, ha]

def conflictState : Handler.HandlerState :=
  { Handler.emptyState with status := upd (fun _ => none) "s1" (some "live") }

/-- Witness for C4: a Live key "s1" is denied with 409, state untouched. -/
theorem publish_conflict_preserves_session_witness :
    Handler.auth_publish "t0" (.resp 200 [("stream_id", Py.Json.str "x")])
        conflictState "s1" "9.9.9.9" "live-app" =
      .error (⟨409, "Stream already in use"⟩, conflictState) :=
  publish_conflict_preserves_session "t0" "s1" "9.9.9.9" "live-app" conflictState
    [("stream_id", Py.Json.str "x")] (by simp)
    (Or.inl ⟨rfl, by simp [conflictState, Handler.emptyState, upd]⟩)

theorem auth_play_redisAvailable (now : String) (st : Handler.HandlerState) (k ip : String) :
    ((Handler.auth_play now st k ip).2).redisAvailable = st.redisAvailable := by
  unfold Handler.auth_play
  by_cases h : st.redisAvailable <;> simp [h]

theorem auth_play_done_redisAvailable (st : Handler.HandlerState) (k : String) :
    ((Handler.auth_play_done st k).2).redisAvailable = st.redisAvailable := by
  unfold Handler.auth_play_done
  by_cases h : st.redisAvailable <;> simp [h]

theorem auth_play_viewerCount (now : String) (st : Handler.HandlerState) (k ip : String)
    (hr : st.redisAvailable = true) :
    Handler.viewerCount (Handler.auth_play now st k ip).2 k =
      Handler.viewerCount st k + 1 := by
  unfold Handler.auth_play Handler.viewerCount
  simp [hr, upd]

theorem auth_play_done_viewerCount (st : Handler.HandlerState) (k : String)
    (hr : st.redisAvailable = true) :
    Handler.viewerCount (Handler.auth_play_done st k).2 k =
      Handler.viewerCount st k - 1 := by
  unfold Handler.auth_play_done Handler.viewerCount
  simp [hr, upd]

/-- C5 (corrected): starting from viewer count 0 (missing counter), after
any interleaving of N `play` and M `play_done` events for a key the Redis
viewer counter equals N − M as a signed integer: `N - M` when N ≥ M, but
negative (not clamped at 0) when M > N, since `auth_play_done` issues a
plain Redis `DECR`. -/
theorem viewer_count_is_signed_difference (ops : List Bool)
    (st : Handler.HandlerState) (now k ip : String)
    (hr : st.redisAvailable = true) :
    Handler.viewerCount (Handler.runViewerOps now k ip ops st) k =
      Handler.viewerCount st k + (ops.count true : Int) - (ops.count false : Int) := by
  induction ops generalizing st with
  | nil => simp [Handler.runViewerOps]
  | cons op rest ih =>
      cases op
      · rw [Handler.runViewerOps, if_neg (by decide : ¬ (false = true)),
          ih _ (by rw [auth_play_done_redisAvailable]; exact hr),
          auth_play_done_viewerCount st k hr]
        simp [List.count_cons]
        omega
      · rw [Handler.runViewerOps, if_pos rfl,
          ih _ (by rw [auth_play_redisAvailable]; exact hr),
          auth_play_viewerCount now st k ip hr]
        simp [List.count_cons]
        omega

/-- Counterexample to C5 as stated: a single `play_done` from viewer count
0 drives the counter to −1 — it is not clamped at 0. -/
theorem viewer_count_goes_negative :
    Handler.viewerCount (Handler.auth_play_done Handler.emptyState "s").2 "s" = -1
    ∧ ((-1 : Int) < 0) := by
  constructor
  · simp [Handler.auth_play_done, Handler.viewerCount, Handler.emptyState, upd]
  · decide

/-- Witness for C5 at one `play` followed by two `play_done` events. -/
theorem viewer_count_is_signed_difference_witness :
    Handler.viewerCount
        (Handler.runViewerOps "t0" "s" "ip" [true, false, false] Handler.emptyState) "s" =
      Handler.viewerCount Handler.emptyState "s" +
        (([true, false, false].count true : Nat) : Int) -
        (([true, false, false].count false : Nat) : Int) :=
  viewer_count_is_signed_difference [true, false, false] Handler.emptyState "t0" "s" "ip" rfl

/-- C6 (confirmed): `auth_publish_done` returns HTTP 200 with status
"recorded" for every state and stream key — in particular when no session
exists for the key — and never raises an error to the ingest edge. -/
theorem publish_done_always_succeeds (st : Handler.HandlerState) (k : String) :
    (Handler.auth_publish_done st k).1 = ⟨200, "recorded", k⟩ := rfl

/-- C9 (confirmed): `validate_stream_key` either raises 403 — and only
because the collaborator answered 404 — or returns a non-empty dictionary
(assuming the collaborator's 200 bodies carry the documented non-empty
record), so the falsy-result deny branch in `auth_publish` can never fire;
and when the collaborator connection fails, a publish for a non-live key is
allowed (fail-open). -/
theorem validate_stream_key_fail_open (up : Handler.Upstream) (k : String)
    (h200 : ∀ b, up = .resp 200 b → b ≠ []) :
    (∀ d, Handler.validate_stream_key up k = .ok d → d ≠ [])
    ∧ (∀ e, Handler.validate_stream_key up k = .error e →
        e.code = 403 ∧ ∃ b, up = .resp 404 b)
    ∧ (∀ st now ip app_name, st.redisAvailable = true →
        st.status k ≠ some "live" →
        ∃ st2 evs, Handler.auth_publish now Handler.Upstream.connError st k ip app_name =
          .ok (⟨200, "allowed", k⟩, st2, evs)) := by
  refine ⟨?_, ?_, ?_⟩
  · intro d hd
    cases up with
    | resp s b =>
        by_cases h2 : s = 200
        · subst h2
          unfold Handler.validate_stream_key at hd
          simp at hd
          exact hd ▸ h200 b rfl
        · by_cases h4 : s = 404
          · subst h4
            unfold Handler.validate_stream_key at hd
            simp at hd
          · unfold Handler.validate_stream_key at hd
            simp [h2, h4] at hd
            rw [← hd]
            simp [Handler.failOpenInfo]
    | connError =>
        unfold Handler.validate_stream_key at hd
        simp at hd
        rw [← hd]
        simp [Handler.failOpenInfo]
  · intro e he
    cases up with
    | resp s b =>
        by_cases h2 : s = 200
        · subst h2
          unfold Handler.validate_stream_key at he
          simp at he
        · by_cases h4 : s = 404
          · subst h4
            unfold Handler.validate_stream_key at he
            simp at he
            exact ⟨by rw [← he], b, rfl⟩
          · unfold Handler.validate_stream_key at he
            simp [h2, h4] at he
    | connError =>
        unfold Handler.validate_stream_key at he
        simp at he
  · intro st now ip app_name hr hlive
    unfold Handler.auth_publish Handler.validate_stream_key
    have hb : (st.status k == some "live") = false := beq_eq_false_iff_ne.mpr hlive
    simp [Handler.failOpenInfo, hr, hb]

/-- Witness for C9: with the collaborator unreachable and no live session,
publishing key "k1" is allowed. -/
theorem validate_stream_key_fail_open_witness :
    ∃ st2 evs,
      Handler.auth_publish "t0" Handler.Upstream.connError Handler.emptyState "k1" "ip" "app" =
        .ok (⟨200, "allowed", "k1"⟩, st2, evs) :=
  (validate_stream_key_fail_open Handler.Upstream.connError "k1"
      (fun _ h => nomatch h)).2.2
    Handler.emptyState "t0" "ip" "app" rfl (by simp [Handler.emptyState])

/-- C7 (confirmed): from empty counters, 61 requests inside one 60-second
window (limit 60/minute, 1000/hour) see the first 60 allowed and the 61st
rejected with 429 and `Retry-After: 60`; moreover the two counters are
enforced independently — a minute count at its limit rejects with
`Retry-After: 60`, and otherwise an hour count at its limit rejects with
`Retry-After: 3600` — whichever is exceeded first. -/
theorem rate_limit_61st_rejected (st : RateLimiter.Store) (t : Nat) (ident : String) :
    (RateLimiter.runRL 60 1000 "client" (List.replicate 61 0) RateLimiter.emptyStore).1
        = List.replicate 60 RateLimiter.RLOutcome.allowed ++
            [RateLimiter.RLOutcome.rejected 429 "60"]
    ∧ (RateLimiter.overLimit (RateLimiter.getAt st.minute ident t) 60 = true →
        RateLimiter.check_rate_limit 60 1000 t ident st = .error (⟨429, "60"⟩, st))
    ∧ (RateLimiter.overLimit (RateLimiter.getAt st.minute ident t) 60 = false →
        RateLimiter.overLimit (RateLimiter.getAt st.hour ident t) 1000 = true →
        RateLimiter.check_rate_limit 60 1000 t ident st = .error (⟨429, "3600"⟩, st)) := by
  refine ⟨by decide, ?_, ?_⟩
  · intro h
    unfold RateLimiter.check_rate_limit
    simp [h]
  · intro h1 h2
    unfold RateLimiter.check_rate_limit
    simp [h1, h2]

/-- A store whose minute counter for every identifier already reached 60. -/
def overMinuteStore : RateLimiter.Store :=
  { RateLimiter.emptyStore with minute := fun _ => some ⟨60, 1⟩ }

/-- Witness for C7: the 61-request scenario, plus the minute-limit
rejection at a store whose minute counter reads 60. -/
theorem rate_limit_61st_rejected_witness :
    (RateLimiter.runRL 60 1000 "client" (List.replicate 61 0) RateLimiter.emptyStore).1
        = List.replicate 60 RateLimiter.RLOutcome.allowed ++
            [RateLimiter.RLOutcome.rejected 429 "60"]
    ∧ RateLimiter.check_rate_limit 60 1000 0 "x" overMinuteStore =
        .error (⟨429, "60"⟩, overMinuteStore) := by
  have h := rate_limit_61st_rejected overMinuteStore 0 "x"
  exact ⟨h.1, h.2.1 (by decide)⟩

/-- C10 (confirmed): a request that `check_rate_limit` rejects with 429
leaves the store exactly as it was — both counters are incremented only
after both limit checks pass, so a rate-limited request consumes no quota. -/
theorem rate_limit_rejection_leaves_counters (perMinute perHour t : Nat)
    (ident : String) (st st2 : RateLimiter.Store) (e : RateLimiter.RLErr)
    (h : RateLimiter.check_rate_limit perMinute perHour t ident st = .error (e, st2)) :
    st2 = st ∧ e.code = 429 := by
  unfold RateLimiter.check_rate_limit at h
  by_cases h1 : RateLimiter.overLimit (RateLimiter.getAt st.minute ident t) perMinute
  · rw [if_pos h1] at h
    simp at h
    exact ⟨h.2.symm, by rw [← h.1]⟩
  · rw [if_neg h1] at h
    by_cases h2 : RateLimiter.overLimit (RateLimiter.getAt st.hour ident t) perHour
    · rw [if_pos h2] at h
      simp at h
      exact ⟨h.2.symm, by rw [← h.1]⟩
    · rw [if_neg h2] at h
      simp at h

/-- Witness for C10 at a store whose minute counter reads 60. -/
theorem rate_limit_rejection_leaves_counters_witness :
    overMinuteStore = overMinuteStore ∧ (⟨429, "60"⟩ : RateLimiter.RLErr).code = 429 :=
  rate_limit_rejection_leaves_counters 60 1000 0 "x" overMinuteStore overMinuteStore
    ⟨429, "60"⟩ rfl

/-- Counterexample to C8 as stated: with burst threshold 100, request 102
in the 150-requests-in-10-seconds scenario is rejected by the block check
with 403, not 429 (only request 101 gets the 429); and the raw-request
counter window is 60 seconds, not 10 — a second request 30 s after the
first still increments the same window to 2. -/
theorem burst_block_rejects_403_not_429 :
    (Security.runSec 100 "ip7" (List.replicate 102 0) Security.emptyStore).1
        = List.replicate 100 Security.SecOutcome.allowed ++
            [Security.SecOutcome.limited429, Security.SecOutcome.blocked403]
    ∧ Security.SecOutcome.blocked403 ≠ Security.SecOutcome.limited429
    ∧ (Security.runSec 100 "ip7" [0, 30] Security.emptyStore).2.susp "ip7" = some (2, 90) := by
  decide

set_option maxRecDepth 40000 in
/-- C8 (corrected): an IP sending 150 requests at once against burst
threshold 100 sees requests 1-100 allowed, request 101 rejected 429 with a
block record written for 3600 s, and requests 102-150 rejected 403 by the
block check without touching the counter (it stays at 101; its window is
60 s); a request at t+3601 s, after the block TTL expired, succeeds. -/
theorem burst_block_behavior :
    (Security.runSec 100 "ip7" (List.replicate 150 0) Security.emptyStore).1
        = List.replicate 100 Security.SecOutcome.allowed ++
            Security.SecOutcome.limited429 :: List.replicate 49 Security.SecOutcome.blocked403
    ∧ (Security.runSec 100 "ip7" (List.replicate 150 0) Security.emptyStore).2.blocked "ip7"
        = some 3600
    ∧ (Security.runSec 100 "ip7" (List.replicate 150 0) Security.emptyStore).2.susp "ip7"
        = some (101, 60)
    ∧ (Security.security_check_middleware 100 3601 "ip7"
          (Security.runSec 100 "ip7" (List.replicate 150 0) Security.emptyStore).2).1
        = Security.SecOutcome.allowed := by
  decide
